import Mathlib

/-!
Verification of the webhook → Discord notification relay (src/app.ts,
src/render.ts) against its specification.

The TypeScript program is embedded shallowly:

* JavaScript values that the code inspects dynamically (the open `details`
  bag of an event) are modelled by `JSValue`, with JavaScript truthiness
  and string coercion made explicit.
* Each function of src/app.ts becomes a pure Lean function.  Side effects
  (outbound vendor-API GETs, Discord message sends, log lines, HTTP
  responses) are reified as an `Effect` trace that the functions return,
  and fallible code returns `Except`.
* The external world (the JSON parser, the vendor API, the Discord client,
  the signature check of the standardwebhooks dependency) is passed in as
  explicit parameters, so every behaviour of the source is a function of
  those inputs.
-/

/-- A JavaScript value as far as this program inspects one: the event
`details` field is typed `any` in src/render.ts and read dynamically in
src/app.ts.  Numbers are modelled as integers (the program only ever
formats them). -/
inductive JSValue where
  | undefined : JSValue
  | null : JSValue
  | bool : Bool → JSValue
  | num : Int → JSValue
  | str : String → JSValue
deriving DecidableEq, Repr

/-- JavaScript truthiness: `undefined`, `null`, `false`, `0` and `""` are
falsy, everything else is truthy. -/
def jsTruthy : JSValue → Bool
  | JSValue.undefined => false
  | JSValue.null => false
  | JSValue.bool b => b
  | JSValue.num n => n != 0
  | JSValue.str s => s != ""

/-- JavaScript string coercion, as used by template literals and by the
`+` operator on a string: `undefined` prints as "undefined". -/
def jsToString : JSValue → String
  | JSValue.undefined => "undefined"
  | JSValue.null => "null"
  | JSValue.bool b => if b then "true" else "false"
  | JSValue.num n => toString n
  | JSValue.str s => s

/-- A key is present on a JavaScript object when reading it does not give
`undefined`; an absent key reads as `undefined`. -/
def jsPresent : JSValue → Bool
  | JSValue.undefined => false
  | _ => true

/-- The event `details` bag (src/render.ts types it `any`).  The code of
src/app.ts reads exactly these five keys, so the shallow embedding keeps
just them; a key absent on the wire is `undefined`. -/
structure EventDetails where
  nonZeroExit : JSValue := JSValue.undefined
  oomKilled : JSValue := JSValue.undefined
  timedOutSeconds : JSValue := JSValue.undefined
  timedOutReason : JSValue := JSValue.undefined
  unhealthy : JSValue := JSValue.undefined
deriving DecidableEq, Repr

/-- `WebhookData` of src/render.ts. -/
structure WebhookData where
  id : String
  serviceId : String
deriving DecidableEq, Repr

/-- `WebhookPayload` of src/render.ts (the `Date` timestamp is carried as
its wire string; the program never reads it). -/
structure WebhookPayload where
  type : String
  timestamp : String
  data : WebhookData
deriving DecidableEq, Repr

/-- `RenderService` of src/render.ts. -/
structure RenderService where
  id : String
  name : String
  dashboardUrl : String
deriving DecidableEq, Repr

/-- `RenderEvent` of src/render.ts, with the `any` details given the
`EventDetails` shape the code reads. -/
structure RenderEvent where
  id : String
  type : String
  details : EventDetails
deriving DecidableEq, Repr

/-- The notification description computed inside `sendServerFailedMessage`
(src/app.ts lines 107-116): an if/else-if chain over the details bag using
JavaScript truthiness, with string coercion exactly as the template
literals and the string `+` perform it. -/
def failureDescription (eventDetails : EventDetails) : String :=
  if jsTruthy eventDetails.nonZeroExit then
    "Exited with status " ++ jsToString eventDetails.nonZeroExit
  else if jsTruthy eventDetails.oomKilled then
    "Out of Memory"
  else if jsTruthy eventDetails.timedOutSeconds then
    "Timed out " ++ jsToString eventDetails.timedOutReason
  else if jsTruthy eventDetails.unhealthy then
    jsToString eventDetails.unhealthy
  else
    "Failed for unknown reason"

/-- Follows the words of the specification sentence behind claim C1: the
same priority chain, but selecting on *presence* of each failure-detail
field rather than on its truthiness.  Kept separate from
`failureDescription` (which embeds the source) so the two can be
compared. -/
def descriptionByPresence (eventDetails : EventDetails) : String :=
  if jsPresent eventDetails.nonZeroExit then
    "Exited with status " ++ jsToString eventDetails.nonZeroExit
  else if jsPresent eventDetails.oomKilled then
    "Out of Memory"
  else if jsPresent eventDetails.timedOutSeconds then
    "Timed out " ++ jsToString eventDetails.timedOutReason
  else if jsPresent eventDetails.unhealthy then
    jsToString eventDetails.unhealthy
  else
    "Failed for unknown reason"

/-- A Discord message as `sendServerFailedMessage` constructs it: embed
title, embed description, embed URL, and the URL of the "View Logs"
button (src/app.ts lines 118-135). -/
structure DiscordMessage where
  title : String
  description : String
  url : String
  logsUrl : String
deriving DecidableEq, Repr

/-- The observable side effects of the program, reified as trace events:
vendor-API GET calls, Discord channel sends, log lines, and HTTP
responses. -/
inductive Effect where
  | apiGet : String → Effect
  | discordSend : DiscordMessage → Effect
  | logInfo : String → Effect
  | logError : String → Effect
  | respond : Nat → String → Effect
deriving DecidableEq, Repr

def isApiGet : Effect → Bool
  | Effect.apiGet _ => true
  | _ => false

def isDiscordSend : Effect → Bool
  | Effect.discordSend _ => true
  | _ => false

def isRespond : Effect → Bool
  | Effect.respond _ _ => true
  | _ => false

/-- The Discord messages contained in a trace, in order. -/
def sentMessages (tr : List Effect) : List DiscordMessage :=
  tr.filterMap fun e =>
    match e with
    | Effect.discordSend m => some m
    | _ => none

/-- The HTTP response carried by a trace: status and body of the first
`respond` effect. -/
def responseOf (tr : List Effect) : Option (Nat × String) :=
  tr.findSome? fun e =>
    match e with
    | Effect.respond s b => some (s, b)
    | _ => none

/-- A thrown JavaScript error, distinguished only as far as the error
middleware of src/app.ts distinguishes it: a `WebhookVerificationError`
versus any other `Error` (with its message). -/
inductive JsError where
  | verificationError : JsError
  | genericError : String → JsError
deriving DecidableEq, Repr

def jsErrorMessage : JsError → String
  | JsError.verificationError => "WebhookVerificationError"
  | JsError.genericError m => m

/-- A `fetch` response from the vendor API: HTTP status plus the decoded
JSON body that `res.json()` would yield. -/
structure FetchResponse (α : Type) where
  status : Nat
  json : α
deriving DecidableEq, Repr

/-- `res.ok` of the Fetch API: status in the inclusive range 200-299. -/
def FetchResponse.isOk (r : FetchResponse α) : Bool :=
  200 ≤ r.status && r.status ≤ 299

/-- The vendor (Render) REST API as the program sees it: a response for
`GET {base}/events/{id}` and one for `GET {base}/services/{id}`. -/
structure Api where
  eventFor : String → FetchResponse RenderEvent
  serviceFor : String → FetchResponse RenderService

/-- A resolved Discord channel, as far as the code inspects one. -/
structure Channel where
  sendable : Bool
deriving DecidableEq, Repr

/-- The Discord client state: the configured channel id and the result of
`client.channels.fetch` (`none` models an unresolvable / null channel). -/
structure DiscordEnv where
  channelID : String
  channelFor : String → Option Channel

/-- The vendor API base URL (the default of the `RENDER_API_URL`
environment variable, src/app.ts line 18). -/
def renderAPIURL : String := "https://api.render.com/v1"

/-- `fetchEventInfo` (src/app.ts lines 141-158): one GET against the
events endpoint; a non-ok response throws an Error whose message carries
the HTTP status code. -/
def fetchEventInfo (api : Api) (payload : WebhookPayload) :
    List Effect × Except JsError RenderEvent :=
  let res := api.eventFor payload.data.id
  ([Effect.apiGet (renderAPIURL ++ "/events/" ++ payload.data.id)],
    if res.isOk then Except.ok res.json
    else Except.error (JsError.genericError
      ("unable to fetch event info; received code :" ++ toString res.status)))

/-- `fetchServiceInfo` (src/app.ts lines 160-177): one GET against the
services endpoint; a non-ok response throws an Error whose message
carries the HTTP status code. -/
def fetchServiceInfo (api : Api) (payload : WebhookPayload) :
    List Effect × Except JsError RenderService :=
  let res := api.serviceFor payload.data.serviceId
  ([Effect.apiGet (renderAPIURL ++ "/services/" ++ payload.data.serviceId)],
    if res.isOk then Except.ok res.json
    else Except.error (JsError.genericError
      ("unable to fetch service info; received code :" ++ toString res.status)))

/-- `sendServerFailedMessage` (src/app.ts lines 96-136): resolve the
configured channel (throw if unresolvable), check sendability (throw if
not sendable), compute the description, build the embed with title
`{service.name} Failed` and the logs button `{service.dashboardUrl}/logs`,
and send it. -/
def sendServerFailedMessage (discord : DiscordEnv) (service : RenderService)
    (eventDetails : EventDetails) : List Effect × Except JsError Unit :=
  match discord.channelFor discord.channelID with
  | none =>
    ([], Except.error (JsError.genericError
      ("unable to find specified Discord channel " ++ discord.channelID)))
  | some channel =>
    if !channel.sendable then
      ([], Except.error (JsError.genericError
        ("specified Discord channel " ++ discord.channelID ++ " is not sendable")))
    else
      ([Effect.discordSend
        { title := service.name ++ " Failed",
          description := failureDescription eventDetails,
          url := service.dashboardUrl,
          logsUrl := service.dashboardUrl ++ "/logs" }],
       Except.ok ())

/-- The body of the `try` block of the `server_failed` case of
`handleWebhook` (src/app.ts lines 81-87): fetch the service, then the
event, log, then send the Discord message; the first error aborts the
chain. -/
def serverFailedBranch (api : Api) (discord : DiscordEnv)
    (payload : WebhookPayload) : List Effect × Except JsError Unit :=
  let s := fetchServiceInfo api payload
  match s.2 with
  | Except.error e => (s.1, Except.error e)
  | Except.ok service =>
    let ev := fetchEventInfo api payload
    match ev.2 with
    | Except.error e => (s.1 ++ ev.1, Except.error e)
    | Except.ok event =>
      let m := sendServerFailedMessage discord service event.details
      (s.1 ++ ev.1
        ++ [Effect.logInfo ("sending discord message for " ++ service.name)]
        ++ m.1,
       m.2)

/-- `handleWebhook` (src/app.ts lines 78-94): switch on the payload type;
only "server_failed" is handled, inside a try/catch that logs any error;
every other type is logged and dropped. -/
def handleWebhook (api : Api) (discord : DiscordEnv)
    (payload : WebhookPayload) : List Effect :=
  if payload.type = "server_failed" then
    let b := serverFailedBranch api discord payload
    match b.2 with
    | Except.ok _ => b.1
    | Except.error e => b.1 ++ [Effect.logError (jsErrorMessage e)]
  else
    [Effect.logInfo ("unhandled webhook type " ++ payload.type
      ++ " for service " ++ payload.data.serviceId)]

/-- The signature check of the standardwebhooks dependency, abstracted:
given the signed content `{id}.{timestamp}.{body}` and the value of the
webhook-signature header, decide whether some listed signature matches the
HMAC the shared secret yields (the secret is folded into the function). -/
def SigCheck : Type := String → String → Bool

/-- The three required webhook headers after the handler's defaulting. -/
structure WHHeaders where
  id : String
  timestamp : String
  signature : String
deriving DecidableEq, Repr

/-- Modelled from the spec: the `verify` method of the standardwebhooks
dependency (not part of this repository's sources).  Per the spec's
Signature Verifier contract it computes a MAC binding id+timestamp+body
and fails with a `VerificationError`; empty (missing) header values fail
the check deterministically before any cryptography, and every failure
mode of verification is a `VerificationError`, never another exception. -/
def whVerify (sigCheck : SigCheck) (body : String) (headers : WHHeaders) :
    Except JsError Unit :=
  if headers.id = "" ∨ headers.timestamp = "" ∨ headers.signature = "" then
    Except.error JsError.verificationError
  else if sigCheck (headers.id ++ "." ++ headers.timestamp ++ "." ++ body)
      headers.signature then
    Except.ok ()
  else
    Except.error JsError.verificationError

/-- An inbound HTTP request as the handler sees it: the raw body bytes
(as a string) and the three webhook headers, each possibly absent. -/
structure HttpRequest where
  body : String
  webhookId : Option String
  webhookTimestamp : Option String
  webhookSignature : Option String
deriving DecidableEq, Repr

/-- The signed content the verifier operates on: the exact raw request
body, bound to the id and timestamp headers. -/
def signedContent (req : HttpRequest) : String :=
  req.webhookId.getD "" ++ "." ++ req.webhookTimestamp.getD ""
    ++ "." ++ req.body

/-- `validateWebhook` (src/app.ts lines 67-76): default each missing
header to the empty string, then verify the raw body against the
headers. -/
def validateWebhook (sigCheck : SigCheck) (req : HttpRequest) :
    Except JsError Unit :=
  whVerify sigCheck req.body
    { id := req.webhookId.getD "",
      timestamp := req.webhookTimestamp.getD "",
      signature := req.webhookSignature.getD "" }

/-- The error middleware (src/app.ts lines 56-63): log the error, answer
400 for a `WebhookVerificationError` and 500 for anything else, with an
empty JSON object body either way. -/
def errorMiddleware (e : JsError) : List Effect :=
  [Effect.logError (jsErrorMessage e),
   Effect.respond
     (match e with
      | JsError.verificationError => 400
      | JsError.genericError _ => 500)
     "\x7b\x7d"]

/-- The `POST /webhook` route (src/app.ts lines 41-54) composed with the
error middleware: verify the raw body first (on throw, delegate to the
middleware); then `JSON.parse` the same raw body (a `SyntaxError` is a
non-verification error reaching the middleware); on success answer
`200 {}` immediately and only then run `handleWebhook` asynchronously.
The JSON parser is passed in as a function of the raw body. -/
def webhookRoute (sigCheck : SigCheck) (req : HttpRequest)
    (parse : String → Except String WebhookPayload)
    (api : Api) (discord : DiscordEnv) : List Effect :=
  match validateWebhook sigCheck req with
  | Except.error e => errorMiddleware e
  | Except.ok _ =>
    match parse req.body with
    | Except.error msg => errorMiddleware (JsError.genericError msg)
    | Except.ok payload =>
      Effect.respond 200 "\x7b\x7d" :: handleWebhook api discord payload

/-- Sample fixtures: a healthy vendor API answering the C8 scenario, a
resolvable sendable Discord channel, and the scenario payload. -/
def sampleDetails : EventDetails := { oomKilled := JSValue.bool true }

def sampleEvent : RenderEvent :=
  { id := "evt_1", type := "server_failed", details := sampleDetails }

def sampleService : RenderService :=
  { id := "srv_1", name := "api", dashboardUrl := "https://x" }

def sampleApi : Api :=
  { eventFor := fun _ => { status := 200, json := sampleEvent },
    serviceFor := fun _ => { status := 200, json := sampleService } }

def sampleDiscord : DiscordEnv :=
  { channelID := "chan_1", channelFor := fun _ => some { sendable := true } }

def samplePayload : WebhookPayload :=
  { type := "server_failed", timestamp := "2025-01-01T00:00:00Z",
    data := { id := "evt_1", serviceId := "srv_1" } }

/-- A vendor API whose event endpoint answers 404. -/
def api404 : Api :=
  { eventFor := fun _ => { status := 404, json := sampleEvent },
    serviceFor := fun _ => { status := 200, json := sampleService } }

/-- A vendor API whose service endpoint answers 503. -/
def api503 : Api :=
  { eventFor := fun _ => { status := 200, json := sampleEvent },
    serviceFor := fun _ => { status := 503, json := sampleService } }

/-- A signature check that accepts everything (isolates non-cryptographic
failure modes). -/
def acceptAll : SigCheck := fun _ _ => true

/-- A well-formed request carrying all three webhook headers. -/
def sampleRequest : HttpRequest :=
  { body := "raw-body", webhookId := some "msg_1",
    webhookTimestamp := some "1735689600", webhookSignature := some "v1,sig" }

/-- A parser oracle returning the sample payload for the sample body. -/
def sampleParse : String → Except String WebhookPayload :=
  fun _ => Except.ok samplePayload

/-- A details object with both a truthy exit status and a truthy timeout
(and no timeout reason). -/
def detailsExitAndTimeout : EventDetails :=
  { nonZeroExit := JSValue.num 1, timedOutSeconds := JSValue.num 5 }

/-- A details object whose failure keys all hold falsy values. -/
def detailsAllFalsy : EventDetails :=
  { nonZeroExit := JSValue.num 0, oomKilled := JSValue.bool false,
    unhealthy := JSValue.str "" }

/-- Claim C1, counterexample: a details object whose `nonZeroExit` key is
present but holds the falsy value `0`.  The presence-based description of
the claim gives "Exited with status 0", while the code falls through the
whole chain to the fallback. -/
theorem c1_presence_counterexample :
    failureDescription { nonZeroExit := JSValue.num 0 } = "Failed for unknown reason"
    ∧ descriptionByPresence { nonZeroExit := JSValue.num 0 } = "Exited with status 0"
    ∧ failureDescription { nonZeroExit := JSValue.num 0 }
        ≠ descriptionByPresence { nonZeroExit := JSValue.num 0 } := by
  refine ⟨rfl, rfl, ?_⟩
  decide

/-- Claim C1 as amended: the description follows the fixed priority order
nonZeroExit, oomKilled, timedOutSeconds, unhealthy, with each field
selected when it is present with a truthy value (nonzero number, true,
nonempty string) and skipped otherwise, falling back to
"Failed for unknown reason" when none is truthy. -/
theorem c1_description_priority (d : EventDetails) :
    (jsTruthy d.nonZeroExit = true →
      failureDescription d = "Exited with status " ++ jsToString d.nonZeroExit)
    ∧ (jsTruthy d.nonZeroExit = false → jsTruthy d.oomKilled = true →
      failureDescription d = "Out of Memory")
    ∧ (jsTruthy d.nonZeroExit = false → jsTruthy d.oomKilled = false →
      jsTruthy d.timedOutSeconds = true →
      failureDescription d = "Timed out " ++ jsToString d.timedOutReason)
    ∧ (jsTruthy d.nonZeroExit = false → jsTruthy d.oomKilled = false →
      jsTruthy d.timedOutSeconds = false → jsTruthy d.unhealthy = true →
      failureDescription d = jsToString d.unhealthy)
    ∧ (jsTruthy d.nonZeroExit = false → jsTruthy d.oomKilled = false →
      jsTruthy d.timedOutSeconds = false → jsTruthy d.unhealthy = false →
      failureDescription d = "Failed for unknown reason") := by
  unfold failureDescription
  refine ⟨?_, ?_, ?_, ?_, ?_⟩ <;> intros <;> simp_all

/-- Claim C1 amended, witness: exercising every branch of the priority
order on concrete details objects. -/
theorem c1_description_priority_witness :
    failureDescription { nonZeroExit := JSValue.num 2 } = "Exited with status 2"
    ∧ failureDescription { oomKilled := JSValue.bool true } = "Out of Memory"
    ∧ failureDescription { timedOutSeconds := JSValue.num 30, timedOutReason := JSValue.str "deploy" } = "Timed out deploy"
    ∧ failureDescription { unhealthy := JSValue.str "probe failed" } = "probe failed"
    ∧ failureDescription {} = "Failed for unknown reason" :=
  ⟨(c1_description_priority { nonZeroExit := JSValue.num 2 }).1 rfl,
   (c1_description_priority { oomKilled := JSValue.bool true }).2.1 rfl rfl,
   (c1_description_priority { timedOutSeconds := JSValue.num 30, timedOutReason := JSValue.str "deploy" }).2.2.1 rfl rfl rfl,
   (c1_description_priority { unhealthy := JSValue.str "probe failed" }).2.2.2.1
      rfl rfl rfl rfl,
   (c1_description_priority {}).2.2.2.2 rfl rfl rfl rfl⟩

/-- Every failure of the modelled verification is a `VerificationError`. -/
theorem whVerify_error_eq (sigCheck : SigCheck) (body : String)
    (headers : WHHeaders) (e : JsError)
    (h : whVerify sigCheck body headers = Except.error e) :
    e = JsError.verificationError := by
  unfold whVerify at h
  split_ifs at h <;> simp_all

/-- Claim C2: every inbound POST /webhook request is answered 200 with
body {} when verification and parsing succeed, 400 with body {} when
verification fails, and 500 with body {} on any other synchronous error
before acknowledgment, such as an unparseable body on a verified
request. -/
theorem c2_http_responses (sigCheck : SigCheck) (req : HttpRequest)
    (parse : String → Except String WebhookPayload)
    (api : Api) (discord : DiscordEnv) :
    (∀ p, validateWebhook sigCheck req = Except.ok () →
      parse req.body = Except.ok p →
      responseOf (webhookRoute sigCheck req parse api discord)
        = some (200, "\x7b\x7d"))
    ∧ (∀ e, validateWebhook sigCheck req = Except.error e →
      responseOf (webhookRoute sigCheck req parse api discord)
        = some (400, "\x7b\x7d"))
    ∧ (∀ msg, validateWebhook sigCheck req = Except.ok () →
      parse req.body = Except.error msg →
      responseOf (webhookRoute sigCheck req parse api discord)
        = some (500, "\x7b\x7d")) := by
  refine ⟨?_, ?_, ?_⟩
  · intro p hv hp
    simp [webhookRoute, hv, hp, responseOf]
  · intro e hv
    have he : e = JsError.verificationError :=
      whVerify_error_eq sigCheck req.body _ e hv
    subst he
    simp [webhookRoute, hv, errorMiddleware, responseOf, jsErrorMessage]
  · intro msg hv hp
    simp [webhookRoute, hv, hp, errorMiddleware, responseOf, jsErrorMessage]

/-- Claim C2, witness: the three response classes at concrete inputs. -/
theorem c2_http_responses_witness :
    responseOf (webhookRoute acceptAll sampleRequest sampleParse
        sampleApi sampleDiscord) = some (200, "\x7b\x7d")
    ∧ responseOf (webhookRoute acceptAll
        { sampleRequest with webhookSignature := none } sampleParse
        sampleApi sampleDiscord) = some (400, "\x7b\x7d")
    ∧ responseOf (webhookRoute acceptAll sampleRequest
        (fun _ => Except.error "Unexpected token") sampleApi sampleDiscord)
      = some (500, "\x7b\x7d") :=
  ⟨(c2_http_responses acceptAll sampleRequest sampleParse sampleApi
      sampleDiscord).1 samplePayload rfl rfl,
   (c2_http_responses acceptAll
      { sampleRequest with webhookSignature := none } sampleParse sampleApi
      sampleDiscord).2.1 JsError.verificationError rfl,
   (c2_http_responses acceptAll sampleRequest
      (fun _ => Except.error "Unexpected token") sampleApi
      sampleDiscord).2.2 "Unexpected token" rfl rfl⟩

/-- Claim C3: a payload of any type other than "server_failed" produces
exactly one info log line and nothing else: no vendor-API call and no
Discord send. -/
theorem c3_unhandled_type_noop (api : Api) (discord : DiscordEnv)
    (p : WebhookPayload) (h : p.type ≠ "server_failed") :
    handleWebhook api discord p
      = [Effect.logInfo ("unhandled webhook type " ++ p.type
          ++ " for service " ++ p.data.serviceId)]
    ∧ (handleWebhook api discord p).countP isApiGet = 0
    ∧ (handleWebhook api discord p).countP isDiscordSend = 0 := by
  refine ⟨?_, ?_, ?_⟩ <;> simp [handleWebhook, h, isApiGet, isDiscordSend]

/-- Claim C3, witness: a "deploy_started" payload is only logged. -/
theorem c3_unhandled_type_noop_witness :
    handleWebhook sampleApi sampleDiscord
        { samplePayload with type := "deploy_started" }
      = [Effect.logInfo
          ("unhandled webhook type deploy_started for service srv_1")]
    ∧ (handleWebhook sampleApi sampleDiscord
        { samplePayload with type := "deploy_started" }).countP
        isDiscordSend = 0 := by
  have h := c3_unhandled_type_noop sampleApi sampleDiscord
    { samplePayload with type := "deploy_started" } (by decide)
  exact ⟨h.1, h.2.2⟩

/-- Claim C7: when any of the three webhook headers is absent the
verifier substitutes the empty string and verification deterministically
fails with a `VerificationError` (never any other exception), whatever
the signature check would say. -/
theorem c7_missing_headers_fail (sigCheck : SigCheck) (req : HttpRequest)
    (h : req.webhookId = none ∨ req.webhookTimestamp = none
      ∨ req.webhookSignature = none) :
    validateWebhook sigCheck req = Except.error JsError.verificationError := by
  unfold validateWebhook whVerify
  rcases h with h | h | h <;> simp [h]

/-- Claim C7, witness: a request with no headers at all fails verification
even under a signature check that accepts everything. -/
theorem c7_missing_headers_fail_witness :
    validateWebhook acceptAll
        { body := "raw-body", webhookId := none, webhookTimestamp := none,
          webhookSignature := none }
      = Except.error JsError.verificationError :=
  c7_missing_headers_fail acceptAll
    { body := "raw-body", webhookId := none, webhookTimestamp := none,
      webhookSignature := none } (Or.inl rfl)

/-- When the service fetch answers non-2xx, the branch stops after that
single GET with the error carrying the status. -/
theorem serverFailedBranch_service_fail (api : Api) (discord : DiscordEnv)
    (p : WebhookPayload)
    (h : (api.serviceFor p.data.serviceId).isOk = false) :
    serverFailedBranch api discord p
      = ([Effect.apiGet (renderAPIURL ++ "/services/" ++ p.data.serviceId)],
         Except.error (JsError.genericError
           ("unable to fetch service info; received code :"
             ++ toString (api.serviceFor p.data.serviceId).status))) := by
  simp [serverFailedBranch, fetchServiceInfo, h]

/-- When the service fetch succeeds but the event fetch answers non-2xx,
the branch stops after the two GETs with the error carrying the status. -/
theorem serverFailedBranch_event_fail (api : Api) (discord : DiscordEnv)
    (p : WebhookPayload)
    (hsv : (api.serviceFor p.data.serviceId).isOk = true)
    (hev : (api.eventFor p.data.id).isOk = false) :
    serverFailedBranch api discord p
      = ([Effect.apiGet (renderAPIURL ++ "/services/" ++ p.data.serviceId),
          Effect.apiGet (renderAPIURL ++ "/events/" ++ p.data.id)],
         Except.error (JsError.genericError
           ("unable to fetch event info; received code :"
             ++ toString (api.eventFor p.data.id).status))) := by
  simp [serverFailedBranch, fetchServiceInfo, fetchEventInfo, hsv, hev]

/-- When both fetches succeed the branch logs and delegates to
`sendServerFailedMessage`. -/
theorem serverFailedBranch_fetches_ok (api : Api) (discord : DiscordEnv)
    (p : WebhookPayload)
    (hsv : (api.serviceFor p.data.serviceId).isOk = true)
    (hev : (api.eventFor p.data.id).isOk = true) :
    serverFailedBranch api discord p
      = ([Effect.apiGet (renderAPIURL ++ "/services/" ++ p.data.serviceId),
          Effect.apiGet (renderAPIURL ++ "/events/" ++ p.data.id),
          Effect.logInfo ("sending discord message for "
            ++ (api.serviceFor p.data.serviceId).json.name)]
          ++ (sendServerFailedMessage discord
              (api.serviceFor p.data.serviceId).json
              (api.eventFor p.data.id).json.details).1,
         (sendServerFailedMessage discord
            (api.serviceFor p.data.serviceId).json
            (api.eventFor p.data.id).json.details).2) := by
  simp [serverFailedBranch, fetchServiceInfo, fetchEventInfo, hsv, hev]

/-- A failing `sendServerFailedMessage` sends nothing. -/
theorem sendServerFailedMessage_error_trace (discord : DiscordEnv)
    (s : RenderService) (ed : EventDetails) (e : JsError)
    (h : (sendServerFailedMessage discord s ed).2 = Except.error e) :
    (sendServerFailedMessage discord s ed).1 = [] := by
  rcases hc : discord.channelFor discord.channelID with _ | ch
  · simp [sendServerFailedMessage, hc]
  · by_cases hs : ch.sendable
    · simp [sendServerFailedMessage, hc, hs] at h
    · simp [sendServerFailedMessage, hc, hs]

/-- The server-failed branch never emits an HTTP response effect. -/
theorem serverFailedBranch_no_respond (api : Api) (discord : DiscordEnv)
    (p : WebhookPayload) :
    ((serverFailedBranch api discord p).1).countP isRespond = 0 := by
  by_cases hsv : (api.serviceFor p.data.serviceId).isOk
  · by_cases hev : (api.eventFor p.data.id).isOk
    · rw [serverFailedBranch_fetches_ok api discord p hsv hev]
      rcases hc : discord.channelFor discord.channelID with _ | ch
      · simp [sendServerFailedMessage, hc, isRespond]
      · by_cases hs : ch.sendable <;>
          simp [sendServerFailedMessage, hc, hs, isRespond]
    · rw [serverFailedBranch_event_fail api discord p hsv (by simp_all)]
      simp [isRespond]
  · rw [serverFailedBranch_service_fail api discord p (by simp_all)]
    simp [isRespond]

/-- The server-failed branch performs at most the two enrichment GETs. -/
theorem serverFailedBranch_apiGet_le (api : Api) (discord : DiscordEnv)
    (p : WebhookPayload) :
    ((serverFailedBranch api discord p).1).countP isApiGet ≤ 2 := by
  by_cases hsv : (api.serviceFor p.data.serviceId).isOk
  · by_cases hev : (api.eventFor p.data.id).isOk
    · rw [serverFailedBranch_fetches_ok api discord p hsv hev]
      rcases hc : discord.channelFor discord.channelID with _ | ch
      · simp [sendServerFailedMessage, hc, isApiGet]
      · by_cases hs : ch.sendable <;>
          simp [sendServerFailedMessage, hc, hs, isApiGet]
    · rw [serverFailedBranch_event_fail api discord p hsv (by simp_all)]
      simp [isApiGet]
  · rw [serverFailedBranch_service_fail api discord p (by simp_all)]
    simp [isApiGet]

/-- `handleWebhook` never emits an HTTP response effect. -/
theorem handleWebhook_no_respond (api : Api) (discord : DiscordEnv)
    (p : WebhookPayload) :
    (handleWebhook api discord p).countP isRespond = 0 := by
  by_cases ht : p.type = "server_failed"
  · rcases hb : (serverFailedBranch api discord p).2 with e | u
    · have h := serverFailedBranch_no_respond api discord p
      simp [handleWebhook, ht, hb, List.countP_append, h, isRespond]
    · have h := serverFailedBranch_no_respond api discord p
      simp [handleWebhook, ht, hb, h]
  · simp [handleWebhook, ht, isRespond]

/-- Claim C4: any error thrown inside the handled server_failed branch is
caught by `handleWebhook` and turned into a log line; the handler still
returns a plain trace (nothing propagates), performs at most the two
enrichment GETs (no retry), and the HTTP acknowledgment of the route that
spawned it is 200 regardless. -/
theorem c4_branch_errors_swallowed (api : Api) (discord : DiscordEnv)
    (p : WebhookPayload) (e : JsError)
    (ht : p.type = "server_failed")
    (he : (serverFailedBranch api discord p).2 = Except.error e) :
    handleWebhook api discord p
      = (serverFailedBranch api discord p).1
        ++ [Effect.logError (jsErrorMessage e)]
    ∧ (handleWebhook api discord p).countP isApiGet ≤ 2
    ∧ ∀ sc req parse, validateWebhook sc req = Except.ok () →
        parse req.body = Except.ok p →
        responseOf (webhookRoute sc req parse api discord)
          = some (200, "\x7b\x7d") := by
  refine ⟨?_, ?_, ?_⟩
  · simp [handleWebhook, ht, he]
  · have h2 := serverFailedBranch_apiGet_le api discord p
    simp [handleWebhook, ht, he, List.countP_append, List.countP_cons, isApiGet]
    simpa [isApiGet] using h2
  · intro sc req parse hv hp
    simp [webhookRoute, hv, hp, responseOf]

/-- Claim C4, witness: a 503 from the service endpoint is logged, nothing
propagates, and the route still answers 200. -/
theorem c4_branch_errors_swallowed_witness :
    handleWebhook api503 sampleDiscord samplePayload
      = (serverFailedBranch api503 sampleDiscord samplePayload).1
        ++ [Effect.logError (jsErrorMessage (JsError.genericError
            "unable to fetch service info; received code :503"))]
    ∧ (handleWebhook api503 sampleDiscord samplePayload).countP isApiGet ≤ 2
    ∧ responseOf (webhookRoute acceptAll sampleRequest sampleParse api503
        sampleDiscord) = some (200, "\x7b\x7d") := by
  have h := c4_branch_errors_swallowed api503 sampleDiscord samplePayload
    (JsError.genericError "unable to fetch service info; received code :503")
    rfl (by
      rw [serverFailedBranch_service_fail api503 sampleDiscord
        samplePayload rfl]
      rfl)
  exact ⟨h.1, h.2.1, h.2.2 acceptAll sampleRequest sampleParse rfl rfl⟩

/-- Claim C5: a non-2xx vendor response to either enrichment GET makes
that call fail with an error carrying the HTTP status code, the branch
result is that error, and no Discord message is sent for the event. -/
theorem c5_fetch_failure_stops (api : Api) (discord : DiscordEnv)
    (p : WebhookPayload) (ht : p.type = "server_failed") :
    ((api.serviceFor p.data.serviceId).isOk = false →
      (serverFailedBranch api discord p).2
        = Except.error (JsError.genericError
          ("unable to fetch service info; received code :"
            ++ toString (api.serviceFor p.data.serviceId).status))
      ∧ (handleWebhook api discord p).countP isDiscordSend = 0)
    ∧ ((api.serviceFor p.data.serviceId).isOk = true →
      (api.eventFor p.data.id).isOk = false →
      (serverFailedBranch api discord p).2
        = Except.error (JsError.genericError
          ("unable to fetch event info; received code :"
            ++ toString (api.eventFor p.data.id).status))
      ∧ (handleWebhook api discord p).countP isDiscordSend = 0) := by
  constructor
  · intro h
    have hb := serverFailedBranch_service_fail api discord p h
    refine ⟨by rw [hb], ?_⟩
    simp [handleWebhook, ht, hb, List.countP_cons, isDiscordSend]
  · intro hsv hev
    have hb := serverFailedBranch_event_fail api discord p hsv hev
    refine ⟨by rw [hb], ?_⟩
    simp [handleWebhook, ht, hb, List.countP_cons, isDiscordSend]

/-- Claim C5, witness: a 404 on the event fetch aborts processing with
the status in the error and no message sent. -/
theorem c5_fetch_failure_stops_witness :
    (serverFailedBranch api404 sampleDiscord samplePayload).2
      = Except.error (JsError.genericError
          "unable to fetch event info; received code :404")
    ∧ (handleWebhook api404 sampleDiscord samplePayload).countP
        isDiscordSend = 0 :=
  (c5_fetch_failure_stops api404 sampleDiscord samplePayload rfl).2 rfl rfl

/-- Claim C6: the pipeline order is fixed.  On a verification failure the
outcome is independent of the parser, the vendor API and the Discord
client (nothing downstream runs); verification consults the signature
check only on the signed content built from the exact raw body; and on a
verified, parsed request the 200 acknowledgment is the head of the trace,
strictly before every enrichment or notification effect, which contain no
further HTTP response. -/
theorem c6_pipeline_order (sc sc1 sc2 : SigCheck) (req : HttpRequest)
    (parse parse1 parse2 : String → Except String WebhookPayload)
    (api api1 api2 : Api) (discord discord1 discord2 : DiscordEnv) :
    (∀ e, validateWebhook sc req = Except.error e →
      webhookRoute sc req parse1 api1 discord1
        = webhookRoute sc req parse2 api2 discord2)
    ∧ (sc1 (signedContent req) (req.webhookSignature.getD "")
         = sc2 (signedContent req) (req.webhookSignature.getD "") →
      webhookRoute sc1 req parse api discord
        = webhookRoute sc2 req parse api discord)
    ∧ (∀ p, validateWebhook sc req = Except.ok () →
      parse req.body = Except.ok p →
      webhookRoute sc req parse api discord
        = Effect.respond 200 "\x7b\x7d" :: handleWebhook api discord p
      ∧ (handleWebhook api discord p).countP isRespond = 0) := by
  refine ⟨?_, ?_, ?_⟩
  · intro e hv
    simp [webhookRoute, hv]
  · intro h
    by_cases hg : req.webhookId.getD "" = "" ∨ req.webhookTimestamp.getD "" = ""
        ∨ req.webhookSignature.getD "" = ""
    · simp [webhookRoute, validateWebhook, whVerify, hg]
    · unfold signedContent at h
      simp [webhookRoute, validateWebhook, whVerify, hg, h]
  · intro p hv hp
    exact ⟨by simp [webhookRoute, hv, hp], handleWebhook_no_respond api discord p⟩

/-- Claim C6, witness: on the sample verified request the trace is the
200 acknowledgment followed by the async handler's effects, which contain
no response. -/
theorem c6_pipeline_order_witness :
    webhookRoute acceptAll sampleRequest sampleParse sampleApi sampleDiscord
      = Effect.respond 200 "\x7b\x7d"
        :: handleWebhook sampleApi sampleDiscord samplePayload
    ∧ (handleWebhook sampleApi sampleDiscord samplePayload).countP
        isRespond = 0 :=
  (c6_pipeline_order acceptAll acceptAll acceptAll sampleRequest sampleParse
    sampleParse sampleParse sampleApi sampleApi sampleApi sampleDiscord
    sampleDiscord sampleDiscord).2.2 samplePayload rfl rfl

/-- Claim C8: the documented scenario.  A server_failed payload whose
event fetch yields details with oomKilled true and whose service fetch
yields name "api" and dashboard URL "https://x" produces exactly one
Discord message, titled "api Failed", describing "Out of Memory", with
the logs link "https://x/logs". -/
theorem c8_oom_scenario :
    sentMessages (handleWebhook sampleApi sampleDiscord samplePayload)
      = [{ title := "api Failed", description := "Out of Memory",
           url := "https://x", logsUrl := "https://x/logs" }] := by
  rfl

/-- Claim C9, counterexample: the claim quantifies over every details
object with a truthy timedOutSeconds and an absent reason, but a details
object that also carries a truthy nonZeroExit is decided by the earlier
branch of the priority chain instead. -/
theorem c9_timedout_counterexample :
    jsTruthy detailsExitAndTimeout.timedOutSeconds = true
    ∧ detailsExitAndTimeout.timedOutReason = JSValue.undefined
    ∧ failureDescription detailsExitAndTimeout = "Exited with status 1"
    ∧ failureDescription detailsExitAndTimeout ≠ "Timed out undefined" := by
  refine ⟨rfl, rfl, rfl, ?_⟩
  decide

/-- Claim C9 as amended: when the timedOutSeconds branch is the one
selected (timedOutSeconds truthy, no earlier field truthy) and
timedOutReason is absent, the undefined reason is concatenated unchecked
and the description is literally "Timed out undefined". -/
theorem c9_timedout_undefined (d : EventDetails)
    (h1 : jsTruthy d.nonZeroExit = false)
    (h2 : jsTruthy d.oomKilled = false)
    (h3 : jsTruthy d.timedOutSeconds = true)
    (h4 : d.timedOutReason = JSValue.undefined) :
    failureDescription d = "Timed out undefined" := by
  simp [failureDescription, h1, h2, h3, h4, jsToString]

/-- Claim C9 amended, witness: a details object carrying only a timeout
of 30 seconds. -/
theorem c9_timedout_undefined_witness :
    failureDescription { timedOutSeconds := JSValue.num 30 }
      = "Timed out undefined" :=
  c9_timedout_undefined { timedOutSeconds := JSValue.num 30 } rfl rfl rfl rfl

/-- Claim C10: the chain tests JavaScript truthiness, not presence.  A
field holding a falsy value behaves exactly as an absent field — the
description is unchanged when it is replaced by undefined — and when all
four failure fields are falsy the description is the fallback. -/
theorem c10_falsy_fields_skipped (d : EventDetails) :
    (jsTruthy d.nonZeroExit = false →
      failureDescription d
        = failureDescription { d with nonZeroExit := JSValue.undefined })
    ∧ (jsTruthy d.oomKilled = false →
      failureDescription d
        = failureDescription { d with oomKilled := JSValue.undefined })
    ∧ (jsTruthy d.timedOutSeconds = false →
      failureDescription d
        = failureDescription { d with timedOutSeconds := JSValue.undefined })
    ∧ (jsTruthy d.unhealthy = false →
      failureDescription d
        = failureDescription { d with unhealthy := JSValue.undefined })
    ∧ (jsTruthy d.nonZeroExit = false → jsTruthy d.oomKilled = false →
      jsTruthy d.timedOutSeconds = false → jsTruthy d.unhealthy = false →
      failureDescription d = "Failed for unknown reason") := by
  unfold failureDescription
  refine ⟨?_, ?_, ?_, ?_, ?_⟩ <;> intros <;> simp_all [jsTruthy]

/-- Claim C10, witness: the claim's own examples — nonZeroExit 0,
oomKilled false, unhealthy the empty string — all fall through to the
fallback. -/
theorem c10_falsy_fields_skipped_witness :
    jsTruthy detailsAllFalsy.nonZeroExit = false
    ∧ failureDescription detailsAllFalsy = "Failed for unknown reason" :=
  ⟨rfl, (c10_falsy_fields_skipped detailsAllFalsy).2.2.2.2 rfl rfl rfl rfl⟩
